import Mathlib

/-!
Shallow embedding of the NetNodeGateway ingestion/integrity subsystem.

Each definition is translated from the C++ sources of the repository:
  - src/common/crc32.cpp           (crc32, crc32_update)
  - src/gateway/sequence_tracker.cpp (SequenceTracker::track)
  - src/gateway/telemetry_parser.cpp (parse_frame)
  - src/gateway/stats_manager.cpp  (StatsManager record/query operations)
  - src/gateway/gateway.cpp        (Gateway::process_frame, stats effects)
  - src/control_node/tcp_framer.cpp (TcpFramer::encode / feed / pop_frame)
  - src/sensor_sim/fault_injector.cpp (FaultInjector::apply)

Machine integers are modelled as Nat with explicit reductions modulo
2 ^ 32 (uint32_t) or 2 ^ 64 (the 64-bit window) exactly where the C++
arithmetic can overflow or truncate.  Byte buffers are List Nat.
-/

namespace NNG

/-! ### CRC engine — src/common/crc32.cpp

The C++ code precomputes a 256-entry table with make_crc_entry; here the
entry is computed by the same 8-round loop (the table is pure caching).
-/

/-- The reflected CRC-32 polynomial used by the table generator. -/
def crcPoly : Nat := 0xEDB88320

/-- One round of the table-generator loop in make_crc_entry. -/
def crcEntryStep (c : Nat) : Nat :=
  if c % 2 = 1 then (c >>> 1) ^^^ crcPoly else c >>> 1

/-- make_crc_entry from src/common/crc32.cpp: 8 rounds over the index. -/
def make_crc_entry (idx : Nat) : Nat := crcEntryStep^[8] idx

/-- One iteration of the crc32_update loop:
crc = (crc >> 8) ^ table[(uint8_t)(crc ^ data[i])]. -/
def crc32_step (crc b : Nat) : Nat :=
  (crc >>> 8) ^^^ make_crc_entry ((crc ^^^ b) % 256)

/-- crc32_update from src/common/crc32.cpp: complement, table-fold over
the bytes, complement.  Complement of a uint32 is XOR with 0xFFFFFFFF. -/
def crc32_update (crc : Nat) (data : List Nat) : Nat :=
  0xFFFFFFFF ^^^ (data.foldl crc32_step (0xFFFFFFFF ^^^ crc))

/-- crc32 from src/common/crc32.cpp: crc32_update starting from 0. -/
def crc32 (data : List Nat) : Nat := crc32_update 0 data

example : crc32 [] = 0 := by decide
example : crc32 [49, 50, 51, 52, 53, 54, 55, 56, 57] = 0xCBF43926 := by decide

/-! ### Sequence tracker — src/gateway/sequence_tracker.cpp -/

/-- WINDOW_SIZE from sequence_tracker.h. -/
def WINDOW_SIZE : Nat := 64

/-- 2 ^ 32, the modulus of uint32_t arithmetic. -/
def U32 : Nat := 2 ^ 32

/-- SeqResult from sequence_tracker.h. -/
inductive SeqResult where
  | FIRST
  | OK
  | GAP
  | REORDER
  | DUPLICATE
deriving DecidableEq, Repr, Inhabited

/-- SeqEvent from sequence_tracker.h. -/
structure SeqEvent where
  result : SeqResult
  src_id : Nat
  expected_seq : Nat
  actual_seq : Nat
  gap_size : Nat
deriving DecidableEq, Repr, Inhabited

/-- Per-source state (SequenceTracker::SourceState); the bitset<64>
seen_window is a Nat kept below 2 ^ 64. -/
structure SourceState where
  next_expected : Nat := 0
  initialized : Bool := false
  seen_window : Nat := 0
deriving DecidableEq, Repr

/-- The tracker's per-source map; operator[] default-constructs missing
entries, so a total function with the default state is faithful for
track (no claim in scope depends on source_count). -/
structure SequenceTracker where
  sources : Nat → SourceState

/-- A freshly constructed SequenceTracker. -/
def SequenceTracker.empty : SequenceTracker := ⟨fun _ => {}⟩

/-- Store an updated per-source state. -/
def SequenceTracker.store (t : SequenceTracker) (id : Nat) (s : SourceState) :
    SequenceTracker :=
  ⟨fun j => if j = id then s else t.sources j⟩

/-- SequenceTracker::track, translated line by line.  seq and
next_expected are uint32; seq + 1 and gap + 1 reduce modulo 2 ^ 32.
The bitset shift truncates above bit 63. -/
def SequenceTracker.track (t : SequenceTracker) (src_id seq : Nat) :
    SeqEvent × SequenceTracker :=
  let s := t.sources src_id
  if s.initialized = false then
    let s' : SourceState :=
      { initialized := true, next_expected := (seq + 1) % U32, seen_window := 0 }
    (⟨.FIRST, src_id, 0, seq, 0⟩, t.store src_id s')
  else if seq = s.next_expected then
    let w := ((s.seen_window <<< 1) % 2 ^ 64) ||| (1 <<< (WINDOW_SIZE - 1))
    (⟨.OK, src_id, seq, seq, 0⟩,
      t.store src_id { s with seen_window := w, next_expected := (seq + 1) % U32 })
  else if seq > s.next_expected then
    let gap := seq - s.next_expected
    let g1 := (gap + 1) % U32
    let w0 := if g1 ≥ WINDOW_SIZE then 0 else (s.seen_window <<< g1) % 2 ^ 64
    let w := w0 ||| (1 <<< (WINDOW_SIZE - 1))
    (⟨.GAP, src_id, seq - gap, seq, gap⟩,
      t.store src_id { s with seen_window := w, next_expected := (seq + 1) % U32 })
  else
    let age := s.next_expected - seq
    if age ≤ WINDOW_SIZE then
      let bit_idx := WINDOW_SIZE - age
      if s.seen_window.testBit bit_idx then
        (⟨.DUPLICATE, src_id, s.next_expected, seq, 0⟩, t)
      else
        (⟨.REORDER, src_id, s.next_expected, seq, 0⟩,
          t.store src_id { s with seen_window := s.seen_window ||| (1 <<< bit_idx) })
    else
      (⟨.REORDER, src_id, s.next_expected, seq, 0⟩, t)

/-- Feed a list of (src_id, seq) pairs in order, collecting the events. -/
def SequenceTracker.trackAll (t : SequenceTracker) :
    List (Nat × Nat) → List SeqEvent × SequenceTracker
  | [] => ([], t)
  | (i, q) :: rest =>
    let (e, t') := t.track i q
    let (es, t'') := t'.trackAll rest
    (e :: es, t'')

example :
    ((SequenceTracker.empty.trackAll [(1, 0), (1, 1), (1, 2), (1, 5), (1, 3)]).1.map
      SeqEvent.result) = [.FIRST, .OK, .OK, .GAP, .REORDER] := by decide

example :
    ((SequenceTracker.empty.trackAll [(1, 5), (1, 5), (1, 5)]).1.map
      SeqEvent.result) = [.FIRST, .REORDER, .DUPLICATE] := by decide

end NNG

namespace NNG

/-! ### Theorems about the CRC engine and the sequence tracker -/

/-- Helper: `crc32_update` folds, so the fold over a concatenation splits. -/
theorem crc32_update_append (c : Nat) (a b : List Nat) :
    crc32_update (crc32_update c a) b =
      0xFFFFFFFF ^^^ ((a ++ b).foldl crc32_step (0xFFFFFFFF ^^^ c)) := by
  simp only [crc32_update, List.foldl_append]
  congr 1
  rw [← Nat.xor_assoc, Nat.xor_self, Nat.zero_xor]

/-- C4: the incremental CRC composes — `crc32_update (crc32_update 0 a) b`
equals `crc32 (a ++ b)` for all byte lists `a`, `b` — and the two check
vectors hold: `crc32 [] = 0x00000000` and `crc32 "123456789" = 0xCBF43926`. -/
theorem crc32_update_composes_and_check_vectors :
    (∀ a b : List Nat, crc32_update (crc32_update 0 a) b = crc32 (a ++ b)) ∧
    crc32 [] = 0x00000000 ∧
    crc32 [49, 50, 51, 52, 53, 54, 55, 56, 57] = 0xCBF43926 := by
  refine ⟨fun a b => ?_, by decide, by decide⟩
  rw [crc32_update_append]
  rfl

/-- C1: feeding (1,0), (1,1), (1,2), (1,5), (1,3) to a fresh
SequenceTracker yields FIRST, OK, OK, GAP(gap_size 2, expected 3,
actual 5), REORDER(expected 6, actual 3). -/
theorem track_gap_then_reorder_trace :
    ((SequenceTracker.empty.trackAll [(1, 0), (1, 1), (1, 2), (1, 5), (1, 3)]).1.map
        SeqEvent.result) = [.FIRST, .OK, .OK, .GAP, .REORDER] ∧
    ((SequenceTracker.empty.trackAll [(1, 0), (1, 1), (1, 2), (1, 5), (1, 3)]).1.getD 3
        default) =
      { result := .GAP, src_id := 1, expected_seq := 3, actual_seq := 5, gap_size := 2 } ∧
    ((SequenceTracker.empty.trackAll [(1, 0), (1, 1), (1, 2), (1, 5), (1, 3)]).1.getD 4
        default) =
      { result := .REORDER, src_id := 1, expected_seq := 6, actual_seq := 3, gap_size := 0 } := by
  refine ⟨by decide, by decide, by decide⟩

/-- C3 counterexample: source 1's very first observed sequence is 5
(classified FIRST); re-sending 5 twice yields REORDER and then
DUPLICATE, so a later track call with the first observed sequence *is*
classified DUPLICATE — the re-send itself (REORDER) marks the bit that
the FIRST transition left clear. -/
theorem first_seq_resent_twice_is_duplicate :
    ((SequenceTracker.empty.trackAll [(1, 5), (1, 5), (1, 5)]).1.map
      SeqEvent.result) = [.FIRST, .REORDER, .DUPLICATE] := by decide

/-- C3 (amended): the FIRST transition does not mark the first observed
sequence's bit in the window, so the *immediately following* re-send of
that sequence is never classified DUPLICATE (it is REORDER, or GAP when
seq + 1 wrapped modulo 2 ^ 32); only from the second re-send on can the
tracker report DUPLICATE, because the re-send itself marks the bit. -/
theorem first_seq_immediate_resend_not_duplicate (src s0 : Nat) (h : s0 < U32) :
    ((SequenceTracker.empty.track src s0).1).result = .FIRST ∧
    ((((SequenceTracker.empty.track src s0).2).track src s0).1).result ≠
      .DUPLICATE := by
  have hU : U32 = 4294967296 := by norm_num [U32]
  refine ⟨rfl, ?_⟩
  have h2 : (SequenceTracker.empty.track src s0).2 =
      SequenceTracker.empty.store src
        { initialized := true, next_expected := (s0 + 1) % U32, seen_window := 0 } := rfl
  have h3 : ∀ st : SourceState,
      (SequenceTracker.empty.store src st).sources src = st := by
    intro st
    simp [SequenceTracker.store]
  rw [h2]
  rcases Nat.lt_or_ge (s0 + 1) U32 with hlt | hge
  · have hnext : (s0 + 1) % U32 = s0 + 1 := Nat.mod_eq_of_lt hlt
    simp only [SequenceTracker.track, h3, hnext]
    simp [WINDOW_SIZE, Nat.zero_testBit]
  · have h1 : s0 + 1 = U32 := by omega
    have hnext : (s0 + 1) % U32 = 0 := by rw [h1, Nat.mod_self]
    have hpos : s0 ≠ 0 := by omega
    simp only [SequenceTracker.track, h3, hnext]
    simp [hpos, Nat.pos_of_ne_zero hpos]

/-- Witness for the amended C3 theorem at src = 1, s0 = 5. -/
theorem first_seq_immediate_resend_not_duplicate_witness :
    5 < U32 ∧
    (((SequenceTracker.empty.track 1 5).1).result = .FIRST ∧
      ((((SequenceTracker.empty.track 1 5).2).track 1 5).1).result ≠
        .DUPLICATE) :=
  ⟨by decide, first_seq_immediate_resend_not_duplicate 1 5 (by decide)⟩

/-! ### Telemetry parser — src/gateway/telemetry_parser.cpp

A received datagram is a byte buffer; bytes are Nat.  The packed
little-endian header of common/protocol.h is deserialized by reading
little-endian fields at fixed offsets (the C++ memcpy on a confirmed
little-endian host).
-/

/-- FRAME_HEADER_SIZE from common/types.h. -/
def FRAME_HEADER_SIZE : Nat := 18

/-- FRAME_CRC_SIZE from common/types.h. -/
def FRAME_CRC_SIZE : Nat := 4

/-- MAX_PAYLOAD_SIZE from common/types.h. -/
def MAX_PAYLOAD_SIZE : Nat := 1024

/-- PROTOCOL_VERSION from common/types.h. -/
def PROTOCOL_VERSION : Nat := 1

/-- Read the byte at offset i (buffers indexed like C arrays). -/
def getByte (buf : List Nat) (i : Nat) : Nat := buf.getD i 0

/-- Read an n-byte little-endian integer at the given offset. -/
def readLE (buf : List Nat) : Nat → Nat → Nat
  | _, 0 => 0
  | off, n + 1 => getByte buf off + 256 * readLE buf (off + 1) n

/-- TelemetryHeader from common/protocol.h. -/
structure TelemetryHeader where
  version : Nat := 0
  msg_type : Nat := 0
  src_id : Nat := 0
  seq : Nat := 0
  ts_ns : Nat := 0
  payload_len : Nat := 0
deriving DecidableEq, Repr

/-- deserialize_header from common/protocol.h: the packed 18-byte
little-endian layout version u8, msg_type u8, src_id u16, seq u32,
ts_ns u64, payload_len u16. -/
def deserialize_header (buf : List Nat) : TelemetryHeader :=
  { version := getByte buf 0
    msg_type := getByte buf 1
    src_id := readLE buf 2 2
    seq := readLE buf 4 4
    ts_ns := readLE buf 8 8
    payload_len := readLE buf 16 2 }

/-- ParseError from gateway/telemetry_parser.h. -/
inductive ParseError where
  | OK
  | TOO_SHORT
  | BAD_VERSION
  | BAD_MSG_TYPE
  | PAYLOAD_TOO_LONG
  | TRUNCATED
  | CRC_MISMATCH
deriving DecidableEq, Repr

/-- ParsedFrame from gateway/telemetry_parser.h; payload_ptr is modelled
as the payload byte slice it points at. -/
structure ParsedFrame where
  header : TelemetryHeader := {}
  payload : List Nat := []
  crc : Nat := 0
  has_crc : Bool := false
deriving DecidableEq, Repr

/-- parse_frame from gateway/telemetry_parser.cpp, as a function from
the input buffer, the crc flag and the caller's out-parameter to the
error code and the final contents of the out-parameter. -/
def parse_frame (buf : List Nat) (crc_enabled : Bool) (out0 : ParsedFrame) :
    ParseError × ParsedFrame :=
  if buf.length < FRAME_HEADER_SIZE then (.TOO_SHORT, out0)
  else
    let out1 := { out0 with header := deserialize_header buf }
    if out1.header.version ≠ PROTOCOL_VERSION then (.BAD_VERSION, out1)
    else if out1.header.msg_type < 1 ∨ out1.header.msg_type > 4 then
      (.BAD_MSG_TYPE, out1)
    else if out1.header.payload_len > MAX_PAYLOAD_SIZE then
      (.PAYLOAD_TOO_LONG, out1)
    else
      let expected := FRAME_HEADER_SIZE + out1.header.payload_len +
        (if crc_enabled then FRAME_CRC_SIZE else 0)
      if buf.length < expected then (.TRUNCATED, out1)
      else
        let out2 := { out1 with
          payload := (buf.drop FRAME_HEADER_SIZE).take out1.header.payload_len,
          has_crc := crc_enabled }
        if crc_enabled then
          let stored := readLE buf (FRAME_HEADER_SIZE + out1.header.payload_len) 4
          let out3 := { out2 with crc := stored }
          let computed := crc32 (buf.take (FRAME_HEADER_SIZE + out1.header.payload_len))
          if computed ≠ stored then (.CRC_MISMATCH, out3) else (.OK, out3)
        else (.OK, { out2 with crc := 0 })

/-! Specification side of C2: the six failure conditions as independent
predicates over the raw buffer, written from the spec's words
("Error ordering (earliest failure wins): ..."), and the first
applicable one in the fixed order. -/

/-- Spec condition TOO_SHORT: len < 18. -/
def condTooShort (buf : List Nat) : Bool := buf.length < 18

/-- Spec condition BAD_VERSION: version byte ≠ 1. -/
def condBadVersion (buf : List Nat) : Bool := getByte buf 0 ≠ 1

/-- Spec condition BAD_MSG_TYPE: msg_type outside 0x01..0x04. -/
def condBadMsgType (buf : List Nat) : Bool :=
  !(1 ≤ getByte buf 1 && getByte buf 1 ≤ 4)

/-- Spec condition PAYLOAD_TOO_LONG: payload_len > 1024. -/
def condPayloadTooLong (buf : List Nat) : Bool := readLE buf 16 2 > 1024

/-- Spec condition TRUNCATED: len < 18 + payload_len + (4 if crc). -/
def condTruncated (buf : List Nat) (crc_enabled : Bool) : Bool :=
  buf.length < 18 + readLE buf 16 2 + (if crc_enabled then 4 else 0)

/-- Spec condition CRC_MISMATCH: with CRC enabled, the CRC computed over
the first 18 + payload_len bytes disagrees with the 4 little-endian
bytes that follow. -/
def condCrcMismatch (buf : List Nat) (crc_enabled : Bool) : Bool :=
  crc_enabled &&
    crc32 (buf.take (18 + readLE buf 16 2)) ≠ readLE buf (18 + readLE buf 16 2) 4

/-- The ordered check list of the spec ("earliest failure wins"). -/
def orderedChecks (buf : List Nat) (crc_enabled : Bool) :
    List (ParseError × Bool) :=
  [(.TOO_SHORT, condTooShort buf),
   (.BAD_VERSION, condBadVersion buf),
   (.BAD_MSG_TYPE, condBadMsgType buf),
   (.PAYLOAD_TOO_LONG, condPayloadTooLong buf),
   (.TRUNCATED, condTruncated buf crc_enabled),
   (.CRC_MISMATCH, condCrcMismatch buf crc_enabled)]

/-- The first applicable failure in the fixed order, OK when none. -/
def spec_first_error (buf : List Nat) (crc_enabled : Bool) : ParseError :=
  match (orderedChecks buf crc_enabled).find? (fun p => p.2) with
  | some p => p.1
  | none => .OK

/-- find? over a (error, flag) pair list steps through the flags. -/
theorem find?_flag_cons (e : ParseError) (b : Bool) (l : List (ParseError × Bool)) :
    List.find? (fun p => p.2) ((e, b) :: l) =
      if b then some (e, b) else List.find? (fun p => p.2) l := by
  cases b <;> simp [List.find?]

/-- C2: for every buffer and every crc flag, parse_frame returns exactly
the first applicable condition of the spec's fixed order TOO_SHORT,
BAD_VERSION, BAD_MSG_TYPE, PAYLOAD_TOO_LONG, TRUNCATED, CRC_MISMATCH,
and OK when none applies. -/
theorem parse_frame_returns_first_applicable_error
    (buf : List Nat) (crc_enabled : Bool) (out0 : ParsedFrame) :
    (parse_frame buf crc_enabled out0).1 = spec_first_error buf crc_enabled := by
  dsimp only [parse_frame, spec_first_error, orderedChecks, FRAME_HEADER_SIZE,
    PROTOCOL_VERSION, MAX_PAYLOAD_SIZE, FRAME_CRC_SIZE, deserialize_header]
  rw [find?_flag_cons, find?_flag_cons, find?_flag_cons, find?_flag_cons,
    find?_flag_cons, find?_flag_cons]
  by_cases h1 : buf.length < 18
  · have c1 : condTooShort buf = true := by simp [condTooShort]; omega
    rw [if_pos h1, if_pos c1]
  · have c1 : ¬ condTooShort buf = true := by simp [condTooShort]; omega
    rw [if_neg h1, if_neg c1]
    by_cases h2 : getByte buf 0 ≠ 1
    · have c2 : condBadVersion buf = true := by simpa [condBadVersion] using h2
      rw [if_pos h2, if_pos c2]
    · have c2 : ¬ condBadVersion buf = true := by simpa [condBadVersion] using h2
      rw [if_neg h2, if_neg c2]
      by_cases h3 : getByte buf 1 < 1 ∨ getByte buf 1 > 4
      · have c3 : condBadMsgType buf = true := by simp [condBadMsgType]; omega
        rw [if_pos h3, if_pos c3]
      · have c3 : ¬ condBadMsgType buf = true := by simp [condBadMsgType]; omega
        rw [if_neg h3, if_neg c3]
        by_cases h4 : readLE buf 16 2 > 1024
        · have c4 : condPayloadTooLong buf = true := by
            simp [condPayloadTooLong]; omega
          rw [if_pos h4, if_pos c4]
        · have c4 : ¬ condPayloadTooLong buf = true := by
            simp [condPayloadTooLong]; omega
          rw [if_neg h4, if_neg c4]
          by_cases h5 : buf.length < 18 + readLE buf 16 2 +
              (if crc_enabled = true then 4 else 0)
          · have c5 : condTruncated buf crc_enabled = true := by
              simp only [condTruncated, decide_eq_true_eq]
              omega
            rw [if_pos h5, if_pos c5]
          · have c5 : ¬ condTruncated buf crc_enabled = true := by
              simp only [condTruncated, decide_eq_true_eq]
              omega
            rw [if_neg h5, if_neg c5]
            cases crc_enabled with
            | false => simp [condCrcMismatch]
            | true =>
              by_cases h6 : crc32 (buf.take (18 + readLE buf 16 2)) =
                  readLE buf (18 + readLE buf 16 2) 4
              · have c6 : ¬ condCrcMismatch buf true = true := by
                  simp [condCrcMismatch, h6]
                rw [if_neg c6, if_pos rfl, if_neg (by simpa using h6)]
                rfl
              · have c6 : condCrcMismatch buf true = true := by
                  simp [condCrcMismatch, h6]
                rw [if_pos c6, if_pos rfl, if_pos (by simpa using h6)]

/-- C9: whenever the buffer holds at least the 18 header bytes, the
parse cannot fail with TOO_SHORT and the out-parameter's header field
has been overwritten with the deserialized header — so on every error
return other than TOO_SHORT (BAD_VERSION, BAD_MSG_TYPE,
PAYLOAD_TOO_LONG, TRUNCATED, CRC_MISMATCH) the caller's ParsedFrame has
been mutated rather than left untouched. -/
theorem parse_frame_overwrites_header_past_length_check
    (buf : List Nat) (crc_enabled : Bool) (out0 : ParsedFrame)
    (h : 18 ≤ buf.length) :
    (parse_frame buf crc_enabled out0).1 ≠ .TOO_SHORT ∧
    ((parse_frame buf crc_enabled out0).2).header = deserialize_header buf := by
  have h1 : ¬ buf.length < FRAME_HEADER_SIZE := by
    simp only [FRAME_HEADER_SIZE]
    omega
  constructor
  · simp only [parse_frame, if_neg h1]
    split_ifs <;> simp
  · simp only [parse_frame, if_neg h1]
    split_ifs <;> rfl

/-- Witness for C9 at a concrete 18-byte buffer with version 99, whose
parse fails with BAD_VERSION yet the header is deserialized. -/
theorem parse_frame_overwrites_header_witness :
    18 ≤ (99 :: List.replicate 17 0).length ∧
    ((parse_frame (99 :: List.replicate 17 0) true {}).1 ≠ .TOO_SHORT ∧
      ((parse_frame (99 :: List.replicate 17 0) true {}).2).header =
        deserialize_header (99 :: List.replicate 17 0)) :=
  ⟨by decide,
    parse_frame_overwrites_header_past_length_check (99 :: List.replicate 17 0)
      true {} (by decide)⟩

/-! ### Stats manager — src/gateway/stats_manager.cpp

The unordered_map of per-source entries is an association list so that
presence of an entry is observable (needed for lazy creation).  The
mutex discipline is irrelevant to the single-threaded claims in scope.
-/

/-- GlobalStats from gateway/stats_manager.h. -/
structure GlobalStats where
  rx_total : Nat := 0
  malformed_total : Nat := 0
  gap_total : Nat := 0
  reorder_total : Nat := 0
  duplicate_total : Nat := 0
  crc_fail_total : Nat := 0
deriving DecidableEq, Repr

/-- SourceStats from gateway/stats_manager.h. -/
structure SourceStats where
  src_id : Nat := 0
  rx_count : Nat := 0
  malformed : Nat := 0
  gaps : Nat := 0
  reorders : Nat := 0
  duplicates : Nat := 0
  last_seq : Nat := 0
  last_ts_ns : Nat := 0
deriving DecidableEq, Repr

/-- StatsManager state. -/
structure StatsManager where
  global : GlobalStats := {}
  sources : List (Nat × SourceStats) := []
deriving DecidableEq, Repr

/-- Look up a source entry (None when absent). -/
def StatsManager.findSource (m : StatsManager) (id : Nat) : Option SourceStats :=
  m.sources.lookup id

/-- StatsManager::get_or_create_source: ensure an entry exists; a fresh
entry starts default-constructed with its src_id field set. -/
def ensureSource (l : List (Nat × SourceStats)) (id : Nat) :
    List (Nat × SourceStats) :=
  match l.lookup id with
  | some _ => l
  | none => l ++ [(id, { src_id := id })]

/-- Apply a mutation to the (created-if-absent) entry of one source. -/
def updateSource (l : List (Nat × SourceStats)) (id : Nat)
    (f : SourceStats → SourceStats) : List (Nat × SourceStats) :=
  (ensureSource l id).map fun kv => if kv.1 = id then (kv.1, f kv.2) else kv

/-- StatsManager::record_rx. -/
def StatsManager.record_rx (m : StatsManager) (id seq ts_ns : Nat) : StatsManager :=
  { global := { m.global with rx_total := m.global.rx_total + 1 },
    sources := updateSource m.sources id fun s =>
      { s with rx_count := s.rx_count + 1, last_seq := seq, last_ts_ns := ts_ns } }

/-- StatsManager::record_malformed. -/
def StatsManager.record_malformed (m : StatsManager) (id : Nat) : StatsManager :=
  { global := { m.global with malformed_total := m.global.malformed_total + 1 },
    sources := updateSource m.sources id fun s =>
      { s with malformed := s.malformed + 1 } }

/-- StatsManager::record_gap. -/
def StatsManager.record_gap (m : StatsManager) (id gap_size : Nat) : StatsManager :=
  { global := { m.global with gap_total := m.global.gap_total + gap_size },
    sources := updateSource m.sources id fun s =>
      { s with gaps := s.gaps + gap_size } }

/-- StatsManager::record_reorder. -/
def StatsManager.record_reorder (m : StatsManager) (id : Nat) : StatsManager :=
  { global := { m.global with reorder_total := m.global.reorder_total + 1 },
    sources := updateSource m.sources id fun s =>
      { s with reorders := s.reorders + 1 } }

/-- StatsManager::record_duplicate. -/
def StatsManager.record_duplicate (m : StatsManager) (id : Nat) : StatsManager :=
  { global := { m.global with duplicate_total := m.global.duplicate_total + 1 },
    sources := updateSource m.sources id fun s =>
      { s with duplicates := s.duplicates + 1 } }

/-- StatsManager::record_crc_fail: bumps the global crc_fail_total and
the per-source malformed counter ("CRC failures also count as
malformed"). -/
def StatsManager.record_crc_fail (m : StatsManager) (id : Nat) : StatsManager :=
  { global := { m.global with crc_fail_total := m.global.crc_fail_total + 1 },
    sources := updateSource m.sources id fun s =>
      { s with malformed := s.malformed + 1 } }

/-- StatsManager::get_source_stats: a const query; an absent id yields a
default-constructed SourceStats and (being const) creates nothing. -/
def StatsManager.get_source_stats (m : StatsManager) (id : Nat) : SourceStats :=
  match m.sources.lookup id with
  | some s => s
  | none => {}

/-! Association-list bookkeeping lemmas for the per-source map. -/

theorem lookup_append_of_none {β : Type} (l₁ l₂ : List (Nat × β)) (id : Nat)
    (h : l₁.lookup id = none) : (l₁ ++ l₂).lookup id = l₂.lookup id := by
  induction l₁ with
  | nil => simp
  | cons kv t ih =>
    by_cases hk : id = kv.1
    · simp [List.lookup, hk] at h
    · simp only [List.lookup, List.cons_append] at h ⊢
      rw [show (id == kv.1) = false by simpa using hk] at h ⊢
      exact ih h

theorem lookup_append_of_some {β : Type} (l₁ l₂ : List (Nat × β)) (id : Nat)
    {s : β} (h : l₁.lookup id = some s) : (l₁ ++ l₂).lookup id = some s := by
  induction l₁ with
  | nil => simp at h
  | cons kv t ih =>
    by_cases hk : id = kv.1
    · simp only [List.lookup, List.cons_append] at h ⊢
      rw [show (id == kv.1) = true by simpa using hk] at h ⊢
      exact h
    · simp only [List.lookup, List.cons_append] at h ⊢
      rw [show (id == kv.1) = false by simpa using hk] at h ⊢
      exact ih h

theorem lookup_map_if_self (l : List (Nat × SourceStats)) (id : Nat)
    (f : SourceStats → SourceStats) :
    (l.map fun kv => if kv.1 = id then (kv.1, f kv.2) else kv).lookup id =
      (l.lookup id).map f := by
  induction l with
  | nil => simp
  | cons kv t ih =>
    obtain ⟨k, s⟩ := kv
    simp only [List.map_cons]
    by_cases hk : k = id
    · subst hk
      rw [if_pos (show (k, s).1 = k from rfl)]
      simp [List.lookup, ih]
    · rw [if_neg (show ¬ (k, s).1 = id from hk)]
      simp [List.lookup, show (id == k) = false by simpa using (Ne.symm hk), ih]

theorem lookup_map_if_ne (l : List (Nat × SourceStats)) (id j : Nat)
    (f : SourceStats → SourceStats) (hj : j ≠ id) :
    (l.map fun kv => if kv.1 = id then (kv.1, f kv.2) else kv).lookup j =
      l.lookup j := by
  induction l with
  | nil => simp
  | cons kv t ih =>
    obtain ⟨k, s⟩ := kv
    simp only [List.map_cons]
    by_cases hk : k = id
    · subst hk
      rw [if_pos (show (k, s).1 = k from rfl)]
      simp [List.lookup, show (j == k) = false by simpa using hj, ih]
    · rw [if_neg (show ¬ (k, s).1 = id from hk)]
      cases hjk : (j == k) <;> simp [List.lookup, hjk, ih]

theorem lookup_ensure_self (l : List (Nat × SourceStats)) (id : Nat) :
    (ensureSource l id).lookup id =
      some ((l.lookup id).getD { src_id := id }) := by
  unfold ensureSource
  cases h : l.lookup id with
  | some s => simp [h]
  | none =>
    simp only [h, Option.getD_none]
    rw [lookup_append_of_none l _ id h]
    simp [List.lookup]

theorem lookup_ensure_ne (l : List (Nat × SourceStats)) (id j : Nat)
    (hj : j ≠ id) : (ensureSource l id).lookup j = l.lookup j := by
  unfold ensureSource
  cases h : l.lookup id with
  | some s => rfl
  | none =>
    cases hjl : l.lookup j with
    | some s => exact lookup_append_of_some l _ j hjl
    | none =>
      rw [lookup_append_of_none l _ j hjl]
      simp [List.lookup, show (j == id) = false by simpa using hj]

theorem lookup_updateSource_self (l : List (Nat × SourceStats)) (id : Nat)
    (f : SourceStats → SourceStats) :
    (updateSource l id f).lookup id =
      some (f ((l.lookup id).getD { src_id := id })) := by
  unfold updateSource
  rw [lookup_map_if_self, lookup_ensure_self]
  rfl

theorem lookup_updateSource_ne (l : List (Nat × SourceStats)) (id j : Nat)
    (f : SourceStats → SourceStats) (hj : j ≠ id) :
    (updateSource l id f).lookup j = l.lookup j := by
  unfold updateSource
  rw [lookup_map_if_ne _ _ _ _ hj, lookup_ensure_ne _ _ _ hj]

/-- get_source_stats is the lookup with a default-constructed fallback. -/
theorem get_source_stats_eq (m : StatsManager) (id : Nat) :
    m.get_source_stats id = (m.sources.lookup id).getD {} := by
  unfold StatsManager.get_source_stats
  cases m.sources.lookup id <;> rfl

/-- C7: record_crc_fail increments the global crc_fail_total by 1 and the
per-source malformed counter of src_id by 1, creating the entry when it
was absent (the query afterwards always finds one). -/
theorem record_crc_fail_bumps_global_and_source_malformed
    (m : StatsManager) (id : Nat) :
    (m.record_crc_fail id).global.crc_fail_total = m.global.crc_fail_total + 1 ∧
    ((m.record_crc_fail id).get_source_stats id).malformed =
      (m.get_source_stats id).malformed + 1 ∧
    ((m.record_crc_fail id).findSource id).isSome = true := by
  refine ⟨rfl, ?_, ?_⟩
  · simp only [StatsManager.record_crc_fail, get_source_stats_eq,
      lookup_updateSource_self]
    cases h : m.sources.lookup id <;> simp [h]
  · simp only [StatsManager.findSource, StatsManager.record_crc_fail,
      lookup_updateSource_self]
    rfl

/-- C10: querying the stats of a source id with no recorded activity
returns a default-constructed SourceStats — every counter and the
src_id field zero — with no error signal (get_source_stats is a const
query in the source: it performs a find and never inserts). -/
theorem get_source_stats_absent_is_default (m : StatsManager) (id : Nat)
    (h : m.sources.lookup id = none) :
    m.get_source_stats id =
      { src_id := 0, rx_count := 0, malformed := 0, gaps := 0, reorders := 0,
        duplicates := 0, last_seq := 0, last_ts_ns := 0 } := by
  simp [StatsManager.get_source_stats, h]

/-- Witness for C10 on a fresh StatsManager at id 7. -/
theorem get_source_stats_absent_is_default_witness :
    (({} : StatsManager).sources.lookup 7 = none) ∧
    ({} : StatsManager).get_source_stats 7 =
      { src_id := 0, rx_count := 0, malformed := 0, gaps := 0, reorders := 0,
        duplicates := 0, last_seq := 0, last_ts_ns := 0 } :=
  ⟨rfl, get_source_stats_absent_is_default {} 7 rfl⟩

/-! ### Gateway — stats effects of Gateway::process_frame
(src/gateway/gateway.cpp).  Event publication and logging touch neither
the stats nor the tracker and are omitted; recording is likewise
stats-neutral. -/

/-- The gateway's stats-relevant state. -/
structure GatewayState where
  stats : StatsManager
  tracker : SequenceTracker

/-- A gateway before any frame. -/
def GatewayState.initial : GatewayState := ⟨{}, SequenceTracker.empty⟩

/-- Gateway::process_frame: parse; on failure record_malformed(0) and,
for CRC_MISMATCH, additionally record_crc_fail(0); on success track the
sequence, record_rx, and record the gap/reorder/duplicate counters. -/
def process_frame (crc_enabled : Bool) (g : GatewayState) (frame : List Nat)
    (rx_timestamp_ns : Nat) : GatewayState :=
  let pr := parse_frame frame crc_enabled {}
  if pr.1 ≠ .OK then
    let stats1 := g.stats.record_malformed 0
    let stats2 := if pr.1 = .CRC_MISMATCH then stats1.record_crc_fail 0 else stats1
    { g with stats := stats2 }
  else
    let (ev, tr) := g.tracker.track pr.2.header.src_id pr.2.header.seq
    let stats1 := g.stats.record_rx pr.2.header.src_id pr.2.header.seq rx_timestamp_ns
    let stats2 :=
      match ev.result with
      | .GAP => stats1.record_gap pr.2.header.src_id ev.gap_size
      | .REORDER => stats1.record_reorder pr.2.header.src_id
      | .DUPLICATE => stats1.record_duplicate pr.2.header.src_id
      | _ => stats1
    { stats := stats2, tracker := tr }

theorem malformed_after_record_malformed (m : StatsManager) (id : Nat) :
    ((m.record_malformed id).get_source_stats id).malformed =
      (m.get_source_stats id).malformed + 1 := by
  simp only [StatsManager.record_malformed, get_source_stats_eq,
    lookup_updateSource_self]
  cases h : m.sources.lookup id <;> simp [h]

theorem malformed_after_record_crc_fail (m : StatsManager) (id : Nat) :
    ((m.record_crc_fail id).get_source_stats id).malformed =
      (m.get_source_stats id).malformed + 1 := by
  simp only [StatsManager.record_crc_fail, get_source_stats_eq,
    lookup_updateSource_self]
  cases h : m.sources.lookup id <;> simp [h]

theorem source_stats_after_record_malformed_ne (m : StatsManager) (id j : Nat)
    (hj : j ≠ id) :
    (m.record_malformed id).get_source_stats j = m.get_source_stats j := by
  simp only [StatsManager.record_malformed, get_source_stats_eq]
  rw [lookup_updateSource_ne _ _ _ _ hj]

theorem source_stats_after_record_crc_fail_ne (m : StatsManager) (id j : Nat)
    (hj : j ≠ id) :
    (m.record_crc_fail id).get_source_stats j = m.get_source_stats j := by
  simp only [StatsManager.record_crc_fail, get_source_stats_eq]
  rw [lookup_updateSource_ne _ _ _ _ hj]

/-- C8: a buffer that fails to parse is recorded against source id 0 no
matter what its src_id bytes say; on CRC_MISMATCH both
record_malformed(0) and record_crc_fail(0) run, so source 0's malformed
counter grows by 2 while the global malformed_total and crc_fail_total
each grow by 1; on every other parse failure only record_malformed(0)
runs; no other source's stats change. -/
theorem process_frame_failure_records_against_source_zero
    (crc_enabled : Bool) (g : GatewayState) (frame : List Nat) (ts : Nat)
    (h : (parse_frame frame crc_enabled {}).1 ≠ .OK) :
    ((process_frame crc_enabled g frame ts).stats.get_source_stats 0).malformed =
      (g.stats.get_source_stats 0).malformed +
        (if (parse_frame frame crc_enabled {}).1 = .CRC_MISMATCH then 2 else 1) ∧
    (process_frame crc_enabled g frame ts).stats.global.malformed_total =
      g.stats.global.malformed_total + 1 ∧
    (process_frame crc_enabled g frame ts).stats.global.crc_fail_total =
      g.stats.global.crc_fail_total +
        (if (parse_frame frame crc_enabled {}).1 = .CRC_MISMATCH then 1 else 0) ∧
    (∀ id, id ≠ 0 →
      (process_frame crc_enabled g frame ts).stats.get_source_stats id =
        g.stats.get_source_stats id) := by
  by_cases hc : (parse_frame frame crc_enabled {}).1 = .CRC_MISMATCH
  · have hps : process_frame crc_enabled g frame ts =
        { g with stats := (g.stats.record_malformed 0).record_crc_fail 0 } := by
      simp only [process_frame]
      rw [if_pos h, if_pos hc]
    rw [hps]
    refine ⟨?_, rfl, ?_, ?_⟩
    · rw [malformed_after_record_crc_fail, malformed_after_record_malformed,
        if_pos hc]
    · rw [if_pos hc]
      rfl
    · intro id hid
      rw [source_stats_after_record_crc_fail_ne _ _ _ hid,
        source_stats_after_record_malformed_ne _ _ _ hid]
  · have hps : process_frame crc_enabled g frame ts =
        { g with stats := g.stats.record_malformed 0 } := by
      simp only [process_frame]
      rw [if_pos h, if_neg hc]
    rw [hps]
    refine ⟨?_, rfl, ?_, ?_⟩
    · rw [malformed_after_record_malformed, if_neg hc]
    · rw [if_neg hc]
      rfl
    · intro id hid
      rw [source_stats_after_record_malformed_ne _ _ _ hid]

/-- A 22-byte frame (version 1, msg_type 1, payload_len 0) whose 4
trailing CRC bytes disagree with the CRC of its 18 header bytes. -/
def crcWitnessFrame : List Nat :=
  [1, 1, 5, 0, 0, 0, 0, 0, 0, 0, 0, 0, 0, 0, 0, 0, 0, 0, 1, 2, 3, 4]

/-- Witness for C8 on a fresh gateway and the CRC-mismatching frame. -/
theorem process_frame_failure_records_witness :
    (parse_frame crcWitnessFrame true {}).1 ≠ ParseError.OK ∧
    (((process_frame true GatewayState.initial crcWitnessFrame 0).stats.get_source_stats
          0).malformed =
        ((GatewayState.initial).stats.get_source_stats 0).malformed +
          (if (parse_frame crcWitnessFrame true {}).1 = .CRC_MISMATCH then 2 else 1) ∧
      (process_frame true GatewayState.initial crcWitnessFrame 0).stats.global.malformed_total =
        (GatewayState.initial).stats.global.malformed_total + 1 ∧
      (process_frame true GatewayState.initial crcWitnessFrame 0).stats.global.crc_fail_total =
        (GatewayState.initial).stats.global.crc_fail_total +
          (if (parse_frame crcWitnessFrame true {}).1 = .CRC_MISMATCH then 1 else 0) ∧
      (∀ id, id ≠ 0 →
        (process_frame true GatewayState.initial crcWitnessFrame 0).stats.get_source_stats
            id =
          (GatewayState.initial).stats.get_source_stats id)) :=
  ⟨by decide,
    process_frame_failure_records_against_source_zero true GatewayState.initial
      crcWitnessFrame 0 (by decide)⟩

/-! ### Fault injector — src/sensor_sim/fault_injector.cpp

The C++ injector owns a std::mt19937 seeded once at construction and
draws through uniform_real_distribution<double> (percentage draws
compared against the double thresholds of the config) and
uniform_int_distribution<size_t> (byte and insert positions).  The
numeric behaviour of the PRNG and of floating point is opaque here;
they are modelled as explicit deterministic parameters: R is the
generator state, pctLt draws and compares against a threshold
(pct(rng_) < threshold), intDraw draws uniformly from 0..hi inclusive
(uniform_int_distribution(0, hi)(rng_)), isPos models threshold > 0.0.
Each stage below mirrors the corresponding loop of
FaultInjector::apply, including the order of the RNG draws.
-/

/-- FaultConfig from sensor_sim/fault_injector.h; Q is the (opaque)
double percentage type. -/
structure FaultConfig (Q : Type) where
  loss_pct : Q
  reorder_pct : Q
  duplicate_pct : Q
  corrupt_pct : Q

/-- FaultInjector::FaultStats. -/
structure FaultStats where
  dropped : Nat := 0
  reordered : Nat := 0
  duplicated : Nat := 0
  corrupted : Nat := 0
deriving DecidableEq, Repr

/-- The injector's state: config, PRNG state, stats of the last apply. -/
structure FaultInjector (R Q : Type) where
  config : FaultConfig Q
  rng : R
  last_stats : FaultStats := {}

section FaultModel

variable {R Q : Type} (pctLt : R → Q → Bool × R) (intDraw : R → Nat → Nat × R)
variable (isPos : Q → Bool)

/-- Stage 1 (corruption): per frame, draw a percentage; on a hit against
a non-empty frame, draw a byte index and XOR that byte with 0xFF. -/
def corruptStage (cfg : FaultConfig Q) :
    List (List Nat) → R → FaultStats → List (List Nat) × R × FaultStats
  | [], r, st => ([], r, st)
  | f :: rest, r, st =>
    let (hit, r1) := pctLt r cfg.corrupt_pct
    if hit && !f.isEmpty then
      let (i, r2) := intDraw r1 (f.length - 1)
      let f' := f.set i (f.getD i 0 ^^^ 0xFF)
      let (out, r3, st3) :=
        corruptStage cfg rest r2 { st with corrupted := st.corrupted + 1 }
      (f' :: out, r3, st3)
    else
      let (out, r3, st3) := corruptStage cfg rest r1 st
      (f :: out, r3, st3)

/-- Stage 2a (duplication, selection loop): per frame, draw a
percentage; on a hit schedule a copy. -/
def duplicateSelect (cfg : FaultConfig Q) :
    List (List Nat) → R → FaultStats → List (List Nat) × R × FaultStats
  | [], r, st => ([], r, st)
  | f :: rest, r, st =>
    let (hit, r1) := pctLt r cfg.duplicate_pct
    if hit then
      let (ex, r2, st2) :=
        duplicateSelect cfg rest r1 { st with duplicated := st.duplicated + 1 }
      (f :: ex, r2, st2)
    else
      duplicateSelect cfg rest r1 st

/-- vector::insert(begin() + pos, x). -/
def insertAt (l : List (List Nat)) (pos : Nat) (x : List Nat) : List (List Nat) :=
  l.take pos ++ x :: l.drop pos

/-- Stage 2b (duplication, insertion loop): each scheduled copy goes to
a drawn position in the growing batch. -/
def duplicateInsert : List (List Nat) → List (List Nat) → R → List (List Nat) × R
  | frames, [], r => (frames, r)
  | frames, d :: ds, r =>
    let (pos, r1) := intDraw r frames.length
    duplicateInsert (insertAt frames pos d) ds r1

/-- Stage 3 (loss): remove_if with a per-element percentage draw,
applied first to last. -/
def lossStage (cfg : FaultConfig Q) :
    List (List Nat) → R → FaultStats → List (List Nat) × R × FaultStats
  | [], r, st => ([], r, st)
  | f :: rest, r, st =>
    let (hit, r1) := pctLt r cfg.loss_pct
    if hit then
      lossStage cfg rest r1 { st with dropped := st.dropped + 1 }
    else
      let (out, r2, st2) := lossStage cfg rest r1 st
      (f :: out, r2, st2)

/-- Stage 4 (reorder): walk adjacent pairs; on a hit swap them and skip
past the swapped pair. -/
def reorderStage (cfg : FaultConfig Q) :
    List (List Nat) → R → FaultStats → List (List Nat) × R × FaultStats
  | [], r, st => ([], r, st)
  | [f], r, st => ([f], r, st)
  | a :: b :: rest, r, st =>
    let (hit, r1) := pctLt r cfg.reorder_pct
    if hit then
      let (out, r2, st2) :=
        reorderStage cfg rest r1 { st with reordered := st.reordered + 1 }
      (b :: a :: out, r2, st2)
    else
      let (out, r2, st2) := reorderStage cfg (b :: rest) r1 st
      (a :: out, r2, st2)
termination_by l _ _ => l.length

/-- FaultInjector::apply: reset last_stats, early-return on an empty
batch, then corruption, duplication, loss, reorder in that fixed order,
each stage guarded by its threshold being positive (and the reorder
stage additionally by the batch holding at least two frames). -/
def FaultInjector.apply (inj : FaultInjector R Q) (frames : List (List Nat)) :
    List (List Nat) × FaultInjector R Q :=
  let st0 : FaultStats := {}
  if frames.isEmpty then (frames, { inj with last_stats := st0 })
  else
    let s1 :=
      if isPos inj.config.corrupt_pct then
        corruptStage pctLt intDraw inj.config frames inj.rng st0
      else (frames, inj.rng, st0)
    let s2 :=
      if isPos inj.config.duplicate_pct then
        let ex := duplicateSelect pctLt inj.config s1.1 s1.2.1 s1.2.2
        let fi := duplicateInsert intDraw s1.1 ex.1 ex.2.1
        (fi.1, fi.2, ex.2.2)
      else s1
    let s3 :=
      if isPos inj.config.loss_pct then
        lossStage pctLt inj.config s2.1 s2.2.1 s2.2.2
      else s2
    let s4 :=
      if isPos inj.config.reorder_pct && decide (2 ≤ s3.1.length) then
        reorderStage pctLt inj.config s3.1 s3.2.1 s3.2.2
      else s3
    (s4.1, { inj with rng := s4.2.1, last_stats := s4.2.2 })

end FaultModel

/-- C6: FaultInjector::apply is a deterministic function of the config,
the PRNG state (i.e. seed plus the draws consumed by the call history)
and the input batch — for any model of the distributions.  Two
injectors agreeing on config and PRNG state (even with different
residual last_stats from their histories) produce the same output
batch and the same final state on equal inputs. -/
theorem fault_injector_apply_deterministic (R Q : Type)
    (pctLt : R → Q → Bool × R) (intDraw : R → Nat → Nat × R) (isPos : Q → Bool)
    (i1 i2 : FaultInjector R Q) (input : List (List Nat))
    (hcfg : i1.config = i2.config) (hrng : i1.rng = i2.rng) :
    (i1.apply pctLt intDraw isPos input).1 = (i2.apply pctLt intDraw isPos input).1 ∧
    ((i1.apply pctLt intDraw isPos input).2).rng =
      ((i2.apply pctLt intDraw isPos input).2).rng ∧
    ((i1.apply pctLt intDraw isPos input).2).last_stats =
      ((i2.apply pctLt intDraw isPos input).2).last_stats := by
  obtain ⟨c1, r1, s1⟩ := i1
  obtain ⟨c2, r2, s2⟩ := i2
  cases hcfg
  cases hrng
  exact ⟨rfl, rfl, rfl⟩

/-- Witness for C6 with a concrete model of the distributions (counter
PRNG) and two same-seed injectors whose histories left different
last_stats. -/
theorem fault_injector_apply_deterministic_witness :
    (FaultInjector.mk ⟨50, 50, 50, 50⟩ 3 ⟨9, 9, 9, 9⟩ :
        FaultInjector Nat Nat).config =
      (FaultInjector.mk ⟨50, 50, 50, 50⟩ 3 {} : FaultInjector Nat Nat).config ∧
    (FaultInjector.mk ⟨50, 50, 50, 50⟩ 3 ⟨9, 9, 9, 9⟩ :
        FaultInjector Nat Nat).rng =
      (FaultInjector.mk ⟨50, 50, 50, 50⟩ 3 {} : FaultInjector Nat Nat).rng ∧
    (((FaultInjector.mk ⟨50, 50, 50, 50⟩ 3 ⟨9, 9, 9, 9⟩ :
          FaultInjector Nat Nat).apply
        (fun r q => (decide (r % 100 < q), r + 1)) (fun r h => (min r h, r + 1))
        (fun q => decide (0 < q)) [[1, 2], [3]]).1 =
      ((FaultInjector.mk ⟨50, 50, 50, 50⟩ 3 {} : FaultInjector Nat Nat).apply
        (fun r q => (decide (r % 100 < q), r + 1)) (fun r h => (min r h, r + 1))
        (fun q => decide (0 < q)) [[1, 2], [3]]).1) :=
  ⟨rfl, rfl,
    (fault_injector_apply_deterministic Nat Nat
      (fun r q => (decide (r % 100 < q), r + 1)) (fun r h => (min r h, r + 1))
      (fun q => decide (0 < q))
      (FaultInjector.mk ⟨50, 50, 50, 50⟩ 3 ⟨9, 9, 9, 9⟩)
      (FaultInjector.mk ⟨50, 50, 50, 50⟩ 3 {}) [[1, 2], [3]] rfl rfl).1⟩

/-! ### TCP framer — src/control_node/tcp_framer.cpp -/

/-- The 10 MiB sanity limit of try_extract_frames. -/
def FRAME_LIMIT : Nat := 10 * 1024 * 1024

/-- TcpFramer::encode: 4-byte big-endian length prefix, then the
payload bytes (the length is first truncated to uint32). -/
def encode (p : List Nat) : List Nat :=
  let n := p.length % 2 ^ 32
  ((n >>> 24) &&& 255) :: ((n >>> 16) &&& 255) :: ((n >>> 8) &&& 255) ::
    (n &&& 255) :: p

/-- The big-endian 32-bit read of the first four buffered bytes. -/
def readBE4 (b : List Nat) : Nat :=
  (getByte b 0 <<< 24) ||| (getByte b 1 <<< 16) ||| (getByte b 2 <<< 8) |||
    getByte b 3

/-- The loop body of TcpFramer::try_extract_frames, with explicit fuel
(each iteration consumes at least 4 buffered bytes, so fuel equal to
the buffer length always suffices; see extractLoop_fuel): while at
least 4 bytes are buffered, read the length; clear everything on an
oversized length; stop when the frame is incomplete; otherwise extract
the payload, drop the frame from the buffer and continue.  Extracted
frames append to acc (ready_frames_.push_back). -/
def extractLoop : Nat → List Nat → List (List Nat) →
    List (List Nat) × List Nat
  | 0, buf, acc => (acc, buf)
  | fuel + 1, buf, acc =>
    if 4 ≤ buf.length then
      let frame_len := readBE4 buf
      if FRAME_LIMIT < frame_len then (acc, [])
      else if buf.length < 4 + frame_len then (acc, buf)
      else
        extractLoop fuel (buf.drop (4 + frame_len))
          (acc ++ [(buf.drop 4).take frame_len])
    else (acc, buf)

/-- TcpFramer::try_extract_frames on a buffer. -/
def try_extract (buf : List Nat) (acc : List (List Nat)) :
    List (List Nat) × List Nat :=
  extractLoop buf.length buf acc

/-- TcpFramer state: the raw byte buffer and the FIFO of ready frames. -/
structure TcpFramer where
  buffer : List Nat := []
  ready : List (List Nat) := []
deriving DecidableEq, Repr

/-- TcpFramer::feed: append the bytes, then extract complete frames. -/
def TcpFramer.feed (f : TcpFramer) (data : List Nat) : TcpFramer :=
  let r := try_extract (f.buffer ++ data) f.ready
  ⟨r.2, r.1⟩

/-- TcpFramer::pop_frame: pop the oldest ready frame (empty when none). -/
def TcpFramer.pop_frame (f : TcpFramer) : List Nat × TcpFramer :=
  match f.ready with
  | [] => ([], f)
  | x :: r => (x, ⟨f.buffer, r⟩)

/-- pop_frame applied repeatedly, with fuel (the number of ready frames
always suffices; popAll below supplies it): collect popped payloads
until has_frame is false. -/
def popLoop : Nat → TcpFramer → List (List Nat)
  | 0, _ => []
  | fuel + 1, f =>
    match f.ready with
    | [] => []
    | _ :: _ => (f.pop_frame).1 :: popLoop fuel (f.pop_frame).2

/-- Drain the framer by repeated pop_frame calls until has_frame is
false, collecting the popped payloads in order. -/
def TcpFramer.popAll (f : TcpFramer) : List (List Nat) :=
  popLoop f.ready.length f

/-- Feed a list of chunks in order. -/
def TcpFramer.feedAll (f : TcpFramer) : List (List Nat) → TcpFramer
  | [] => f
  | c :: cs => (f.feed c).feedAll cs

/-- The byte stream carrying a list of payloads: the concatenation of
their encodings. -/
def wireOf (ps : List (List Nat)) : List Nat := (ps.map encode).flatten

example : encode [7, 8] = [0, 0, 0, 2, 7, 8] := by decide
example :
    (({} : TcpFramer).feedAll [[0, 0], [0, 2, 7, 8, 0], [0, 0, 1, 9]]).popAll =
      [[7, 8], [9]] := by decide
example : (({} : TcpFramer).feed [0, 0, 0, 2, 7]).buffer = [0, 0, 0, 2, 7] := by
  decide

/-! Big-endian length prefix arithmetic. -/

theorem shiftLeft_lor_eq_add (a b k : Nat) (hb : b < 2 ^ k) :
    (a <<< k) ||| b = a * 2 ^ k + b := by
  apply Nat.eq_of_testBit_eq
  intro j
  rw [Nat.testBit_or, Nat.testBit_shiftLeft,
    show a * 2 ^ k + b = 2 ^ k * a + b by ring,
    Nat.testBit_mul_pow_two_add a hb j]
  by_cases hj : j < k
  · simp [hj, show ¬ (j ≥ k) by omega]
  · have hbj : b.testBit j = false :=
      Nat.testBit_lt_two_pow
        (lt_of_lt_of_le hb (Nat.pow_le_pow_right (by norm_num) (by omega)))
    simp [hj, show j ≥ k by omega, hbj]

theorem be_recompose (n : Nat) (h : n < 2 ^ 32) :
    (((n >>> 24) &&& 255) <<< 24) ||| (((n >>> 16) &&& 255) <<< 16) |||
        (((n >>> 8) &&& 255) <<< 8) ||| (n &&& 255) = n := by
  have h255 : (255 : Nat) = 2 ^ 8 - 1 := by norm_num
  have e0 : (n >>> 24) &&& 255 = n / 2 ^ 24 % 2 ^ 8 := by
    rw [h255, Nat.and_pow_two_sub_one_eq_mod, Nat.shiftRight_eq_div_pow]
  have e1 : (n >>> 16) &&& 255 = n / 2 ^ 16 % 2 ^ 8 := by
    rw [h255, Nat.and_pow_two_sub_one_eq_mod, Nat.shiftRight_eq_div_pow]
  have e2 : (n >>> 8) &&& 255 = n / 2 ^ 8 % 2 ^ 8 := by
    rw [h255, Nat.and_pow_two_sub_one_eq_mod, Nat.shiftRight_eq_div_pow]
  have e3 : n &&& 255 = n % 2 ^ 8 := by
    rw [h255, Nat.and_pow_two_sub_one_eq_mod]
  have p8 : (0 : Nat) < 2 ^ 8 := by positivity
  have n8 : (2 : Nat) ^ 8 = 256 := by norm_num
  have n16 : (2 : Nat) ^ 16 = 65536 := by norm_num
  have n24 : (2 : Nat) ^ 24 = 16777216 := by norm_num
  have n32 : (2 : Nat) ^ 32 = 4294967296 := by norm_num
  rw [e0, e1, e2, e3, Nat.lor_assoc, Nat.lor_assoc]
  rw [shiftLeft_lor_eq_add _ _ 8 (Nat.mod_lt _ p8)]
  rw [shiftLeft_lor_eq_add _ _ 16
    (show n / 2 ^ 8 % 2 ^ 8 * 2 ^ 8 + n % 2 ^ 8 < 2 ^ 16 by
      have h1 : n / 2 ^ 8 % 2 ^ 8 < 2 ^ 8 := Nat.mod_lt _ p8
      have h2 : n % 2 ^ 8 < 2 ^ 8 := Nat.mod_lt _ p8
      rw [n8, n16] at *
      omega)]
  rw [shiftLeft_lor_eq_add _ _ 24
    (show n / 2 ^ 16 % 2 ^ 8 * 2 ^ 16 + (n / 2 ^ 8 % 2 ^ 8 * 2 ^ 8 + n % 2 ^ 8) <
        2 ^ 24 by
      have h1 : n / 2 ^ 16 % 2 ^ 8 < 2 ^ 8 := Nat.mod_lt _ p8
      have h2 : n / 2 ^ 8 % 2 ^ 8 < 2 ^ 8 := Nat.mod_lt _ p8
      have h3 : n % 2 ^ 8 < 2 ^ 8 := Nat.mod_lt _ p8
      rw [n8, n16, n24] at *
      omega)]
  rw [n8, n16, n24] at *
  rw [n32] at h
  omega

theorem encode_length (p : List Nat) : (encode p).length = 4 + p.length := by
  simp [encode]
  omega

theorem readBE4_cons (b0 b1 b2 b3 : Nat) (rest : List Nat) :
    readBE4 (b0 :: b1 :: b2 :: b3 :: rest) =
      (b0 <<< 24) ||| (b1 <<< 16) ||| (b2 <<< 8) ||| b3 := rfl

theorem encode_append_cons (p t : List Nat) :
    encode p ++ t =
      ((p.length % 2 ^ 32) >>> 24 &&& 255) :: ((p.length % 2 ^ 32) >>> 16 &&& 255) ::
        ((p.length % 2 ^ 32) >>> 8 &&& 255) :: ((p.length % 2 ^ 32) &&& 255) ::
        (p ++ t) := rfl

theorem readBE4_encode_append (p t : List Nat) (h : p.length ≤ FRAME_LIMIT) :
    readBE4 (encode p ++ t) = p.length := by
  have hlt : p.length < 2 ^ 32 := by
    have hfl : FRAME_LIMIT < 2 ^ 32 := by norm_num [FRAME_LIMIT]
    omega
  have hmod : p.length % 2 ^ 32 = p.length := Nat.mod_eq_of_lt hlt
  rw [encode_append_cons, readBE4_cons, hmod]
  exact be_recompose _ hlt

theorem readBE4_append (b s : List Nat) (h : 4 ≤ b.length) :
    readBE4 (b ++ s) = readBE4 b := by
  unfold readBE4 getByte
  rw [List.getD_append _ _ _ 0 (by omega), List.getD_append _ _ _ 1 (by omega),
    List.getD_append _ _ _ 2 (by omega), List.getD_append _ _ _ 3 (by omega)]

theorem wireOf_nil : wireOf [] = [] := rfl

theorem wireOf_cons (p : List Nat) (l : List (List Nat)) :
    wireOf (p :: l) = encode p ++ wireOf l := by
  simp [wireOf]

theorem wireOf_eq_nil (l : List (List Nat)) (h : wireOf l = []) : l = [] := by
  cases l with
  | nil => rfl
  | cons p t =>
    exfalso
    rw [wireOf_cons] at h
    have := congrArg List.length h
    rw [List.length_append, encode_length] at this
    simp at this

/-- Extraction on a buffer that is a prefix of the wire of rem: the
loop peels off exactly the payloads whose full frames are buffered,
returns the remaining bytes, and — when nothing further is coming —
leaves nothing behind. -/
theorem extractLoop_wire : ∀ (fuel : Nat) (buf s : List Nat)
    (rem acc : List (List Nat)),
    buf.length ≤ fuel →
    (∀ p ∈ rem, p.length ≤ FRAME_LIMIT) →
    buf ++ s = wireOf rem →
    ∃ rem₁ rem₂ b',
      rem = rem₁ ++ rem₂ ∧
      buf = wireOf rem₁ ++ b' ∧
      extractLoop fuel buf acc = (acc ++ rem₁, b') ∧
      b' ++ s = wireOf rem₂ ∧
      (s = [] → rem₂ = []) := by
  intro fuel
  induction fuel with
  | zero =>
    intro buf s rem acc hfuel hlen hwire
    have hbuf : buf = [] := List.eq_nil_of_length_eq_zero (by omega)
    subst hbuf
    refine ⟨[], rem, [], by simp, by simp [wireOf], by simp [extractLoop],
      by simpa using hwire, ?_⟩
    intro hs
    subst hs
    exact wireOf_eq_nil rem (by simpa using hwire.symm)
  | succ fuel ih =>
    intro buf s rem acc hfuel hlen hwire
    by_cases h4 : 4 ≤ buf.length
    · cases rem with
      | nil =>
        exfalso
        have hnil : buf ++ s = [] := by simpa [wireOf] using hwire
        have hb : buf = [] := by
          cases buf with
          | nil => rfl
          | cons x xs => simp at hnil
        rw [hb] at h4
        simp at h4
      | cons p rest =>
        have hplen : p.length ≤ FRAME_LIMIT := hlen p (by simp)
        have hwire' : buf ++ s = encode p ++ wireOf rest := by
          rw [hwire, wireOf_cons]
        have hread : readBE4 buf = p.length := by
          rw [← readBE4_append buf s h4, hwire',
            readBE4_encode_append p _ hplen]
        have hnotlimit : ¬ FRAME_LIMIT < readBE4 buf := by
          rw [hread]
          omega
        by_cases hcomp : buf.length < 4 + readBE4 buf
        · refine ⟨[], p :: rest, buf, by simp, by simp [wireOf], ?_, hwire, ?_⟩
          · simp only [extractLoop, if_pos h4, if_neg hnotlimit, if_pos hcomp]
            simp
          · intro hs
            subst hs
            exfalso
            have := congrArg List.length hwire'
            rw [List.append_nil, List.length_append, encode_length] at this
            rw [hread] at hcomp
            omega
        · have hge : 4 + p.length ≤ buf.length := by
            rw [hread] at hcomp
            omega
          have h1 : buf.take (4 + p.length) ++ (buf.drop (4 + p.length) ++ s) =
              encode p ++ wireOf rest := by
            rw [← List.append_assoc, List.take_append_drop]
            exact hwire'
          have h2 := List.append_inj h1
            (by rw [List.length_take, encode_length]; omega)
          have htake : buf.take (4 + p.length) = encode p := h2.1
          have hdrop : buf.drop (4 + p.length) ++ s = wireOf rest := h2.2
          have hbufeq : buf = encode p ++ buf.drop (4 + p.length) := by
            conv_lhs => rw [← List.take_append_drop (4 + p.length) buf]
            rw [htake]
          have hpayload : (buf.drop 4).take (readBE4 buf) = p := by
            rw [hread]
            conv_lhs => rw [hbufeq, encode_append_cons]
            simp [List.take_left]
          have hfuel2 : (buf.drop (4 + readBE4 buf)).length ≤ fuel := by
            rw [List.length_drop]
            omega
          obtain ⟨rem₁', rem₂, b', hremeq, hbufeq', hloop, hbs, himpl⟩ :=
            ih (buf.drop (4 + readBE4 buf)) s rest
              (acc ++ [(buf.drop 4).take (readBE4 buf)]) hfuel2
              (fun q hq => hlen q (by simp [hq]))
              (by rw [hread]; exact hdrop)
          refine ⟨p :: rem₁', rem₂, b', by simp [hremeq], ?_, ?_, hbs, himpl⟩
          · rw [wireOf_cons, List.append_assoc, ← hbufeq', hread]
            exact hbufeq
          · simp only [extractLoop, if_pos h4, if_neg hnotlimit, if_neg hcomp]
            rw [hloop, hpayload]
            simp
    · refine ⟨[], rem, buf, by simp, by simp [wireOf], ?_, hwire, ?_⟩
      · simp [extractLoop, h4]
      · intro hs
        subst hs
        cases rem with
        | nil => rfl
        | cons p rest =>
          exfalso
          have := congrArg List.length hwire
          rw [List.append_nil, wireOf_cons, List.length_append,
            encode_length] at this
          omega

/-- Repeated pop_frame drains the ready FIFO in order. -/
theorem popLoop_ready : ∀ (l : List (List Nat)) (f : TcpFramer),
    f.ready = l → popLoop l.length f = l := by
  intro l
  induction l with
  | nil =>
    intro f h
    simp [popLoop]
  | cons x r ih =>
    intro f h
    have hp : f.pop_frame = (x, ⟨f.buffer, r⟩) := by
      simp [TcpFramer.pop_frame, h]
    simp only [List.length_cons, popLoop, h, hp]
    exact congrArg (x :: ·) (ih ⟨f.buffer, r⟩ rfl)

theorem popAll_eq_ready (f : TcpFramer) : f.popAll = f.ready :=
  popLoop_ready f.ready f rfl

/-- Feeding chunks of the wire of rem into a framer whose buffer is the
unconsumed prefix drains exactly rem into the ready FIFO and finishes
with an empty buffer. -/
theorem feedAll_wire : ∀ (cs rem : List (List Nat)) (f : TcpFramer),
    (∀ p ∈ rem, p.length ≤ FRAME_LIMIT) →
    f.buffer ++ cs.flatten = wireOf rem →
    (cs.flatten = [] → rem = [] ∧ f.buffer = []) →
    (f.feedAll cs).ready = f.ready ++ rem ∧ (f.feedAll cs).buffer = [] := by
  intro cs
  induction cs with
  | nil =>
    intro rem f hlen hwire hnil
    obtain ⟨hrem, hbuf⟩ := hnil rfl
    subst hrem
    simp [TcpFramer.feedAll, hbuf]
  | cons c cs ih =>
    intro rem f hlen hwire hnil
    have hw : (f.buffer ++ c) ++ cs.flatten = wireOf rem := by
      rw [List.append_assoc]
      simpa [List.flatten_cons] using hwire
    obtain ⟨rem₁, rem₂, b', hremeq, hbufeq, hloop, hbs, himpl⟩ :=
      extractLoop_wire (f.buffer ++ c).length (f.buffer ++ c) cs.flatten rem
        f.ready le_rfl hlen hw
    have hfeed : f.feed c = ⟨b', f.ready ++ rem₁⟩ := by
      simp only [TcpFramer.feed, try_extract]
      rw [hloop]
    have hmem : ∀ q ∈ rem₂, q.length ≤ FRAME_LIMIT := fun q hq =>
      hlen q (by rw [hremeq]; exact List.mem_append_right _ hq)
    have hnil' : cs.flatten = [] → rem₂ = [] ∧ b' = [] := by
      intro h0
      have hr2 := himpl h0
      refine ⟨hr2, ?_⟩
      have hb := hbs
      rw [h0, hr2, List.append_nil] at hb
      simpa [wireOf] using hb
    have ih' := ih rem₂ ⟨b', f.ready ++ rem₁⟩ hmem hbs hnil'
    constructor
    · show ((f.feed c).feedAll cs).ready = _
      rw [hfeed, ih'.1, hremeq, List.append_assoc]
    · show ((f.feed c).feedAll cs).buffer = []
      rw [hfeed]
      exact ih'.2

/-- C5: for any payloads each at most 10 MiB and any splitting of the
concatenation of their encodings into chunks fed in order to a fresh
TcpFramer, pop_frame drains exactly those payloads, in order (and the
buffer ends empty). -/
theorem tcp_framer_chunked_stream_drains_payloads
    (ps cs : List (List Nat))
    (hlen : ∀ p ∈ ps, p.length ≤ FRAME_LIMIT)
    (hchunks : cs.flatten = wireOf ps) :
    (({} : TcpFramer).feedAll cs).popAll = ps ∧
    (({} : TcpFramer).feedAll cs).buffer = [] := by
  have hnil : cs.flatten = [] → ps = [] ∧ ({} : TcpFramer).buffer = [] := by
    intro h0
    rw [h0] at hchunks
    exact ⟨wireOf_eq_nil ps hchunks.symm, rfl⟩
  have h := feedAll_wire cs ps {} hlen (by simpa using hchunks) hnil
  rw [popAll_eq_ready]
  exact ⟨by simpa using h.1, h.2⟩

/-- Witness for C5: the wire of payloads [7,8] and [9] chopped into
three ragged chunks drains both payloads in order. -/
theorem tcp_framer_chunked_stream_witness :
    (∀ p ∈ ([[7, 8], [9]] : List (List Nat)), p.length ≤ FRAME_LIMIT) ∧
    ([[0, 0], [0, 2, 7, 8, 0], [0, 0, 1, 9]] : List (List Nat)).flatten =
      wireOf [[7, 8], [9]] ∧
    ((({} : TcpFramer).feedAll [[0, 0], [0, 2, 7, 8, 0], [0, 0, 1, 9]]).popAll =
        [[7, 8], [9]] ∧
      (({} : TcpFramer).feedAll [[0, 0], [0, 2, 7, 8, 0], [0, 0, 1, 9]]).buffer =
        []) :=
  ⟨by decide, by decide,
    tcp_framer_chunked_stream_drains_payloads [[7, 8], [9]]
      [[0, 0], [0, 2, 7, 8, 0], [0, 0, 1, 9]] (by decide) (by decide)⟩

end NNG
